import Mathlib

set_option maxRecDepth 100000

/-!
Verification of the CalDAV client core in `src/app/caldav.ts` (gssync).

The TypeScript class `CalDav` is shallowly embedded: each public operation
is split into the HTTP request it builds (a pure value) and the outcome
function its response callback computes (settling of the returned promise).
External collaborators (the `request` HTTP transport, the `strong-soap`
XML decoder, WHATWG URL resolution) are passed in as function arguments
or modelled from the spec where noted.
-/

/-- A transport-level failure reported by the `request` collaborator
(the `error` argument of the response callback). -/
structure TransportError where
  cause : String
deriving DecidableEq, Repr

/-- A value of a Node HTTP response header: a plain string or an array of
strings (`string | string[]`). -/
inductive HeaderValue where
  | str (s : String)
  | arr (l : List String)
deriving DecidableEq, Repr

/-- The parts of the `request.RequestResponse` object that `CalDav.put`
reads: `response.statusCode` (possibly undefined) and
`response.headers.etag` (possibly undefined). -/
structure HttpResponse where
  statusCode : Option Nat
  etagHeader : Option HeaderValue
deriving DecidableEq, Repr

/-- The outgoing HTTP request assembled by an operation: method, target
URL string, the headers the source sets (`Depth`, `Prefer`, `If-Match`),
optional proxy, optional body, and the basic-auth credentials supplied
via `.auth(user, password)`. -/
structure HttpRequest where
  method : String
  urlStr : String
  depth : Option String
  prefer : Option String
  ifMatch : Option String
  proxy : Option String
  body : Option String
  authUser : String
  authPassword : String
deriving DecidableEq, Repr

/-- `IHref`: wraps a single `href` string. -/
structure IHref where
  href : String
deriving DecidableEq, Repr

/-- A decoded XML value that is either a single element or a sequence of
repeated sibling elements (the two shapes the decoder produces, e.g.
`IResponse | IResponse[]`). -/
inductive OneOrMany (α : Type) where
  | one (a : α)
  | many (l : List α)
deriving DecidableEq, Repr

/-- `IComponentAttribute`: the `name` attribute of a component element. -/
structure IComponentAttribute where
  name : String
deriving DecidableEq, Repr

/-- `IComponent`: a component element carrying its attributes. -/
structure IComponent where
  attributes : IComponentAttribute
deriving DecidableEq, Repr

/-- `ISupportedCalendarComponentSet`: one or more `comp` elements. -/
structure ISupportedCalendarComponentSet where
  comp : OneOrMany IComponent
deriving DecidableEq, Repr

/-- `IProp`: the loosely-typed bag of properties this client reads; every
field is optional. -/
structure IProp where
  currentUserPrincipal : Option IHref
  calendarHomeSet : Option IHref
  displayname : Option String
  getctag : Option String
  supportedCalendarComponentSet : Option ISupportedCalendarComponentSet
  getetag : Option String
  calendarData : Option String
deriving DecidableEq, Repr

/-- `IPropStat`: a `prop` (possibly undefined) paired with a `status` line. -/
structure IPropStat where
  prop : Option IProp
  status : String
deriving DecidableEq, Repr

/-- `IResponse`: one resource's result; `href` required, `propstat`
single-or-array and optional, `status` optional. -/
structure IResponse where
  href : String
  propstat : Option (OneOrMany IPropStat)
  status : Option String
deriving DecidableEq, Repr

/-- `IMultiStatus`: its `response` field is `IResponse | IResponse[]`. -/
structure IMultiStatus where
  response : OneOrMany IResponse
deriving DecidableEq, Repr

/-- The generic tree the XML decoder returns; this core reads only its
`multistatus` key (absent when the decoded document has none). -/
structure DecodedTree where
  multistatus : Option IMultiStatus
deriving DecidableEq, Repr

/-- How a PROPFIND/REPORT/DELETE promise settles: rejected with the
transport error when the callback received one, otherwise resolved with
`json.multistatus` from the decoded body. -/
inductive DavOutcome where
  | resolved (ms : Option IMultiStatus)
  | rejected (e : TransportError)
deriving DecidableEq, Repr

/-- How a `put` promise settles. `rejectedError` is a call
`reject("error")`; `pending` means neither `resolve` nor `reject` was
reached, so the promise never settles. -/
inductive PutOutcome where
  | resolved (tag : String)
  | rejectedTransport (e : TransportError)
  | rejectedError (s : String)
  | pending
deriving DecidableEq, Repr

/-- JavaScript truthiness of an optional string value: `undefined` and the
empty string are falsy, every other string is truthy. -/
def truthyStr : Option String → Bool
  | none => false
  | some s => !(s == "")

/-- Node `util.format` substitution of successive `%s` placeholders in a
template by the given arguments, as used by `CalDav.search`; inserted
arguments are not rescanned, and leftover placeholders stay literal. -/
def formatS : List Char → List String → List Char
  | [], _ => []
  | '%' :: 's' :: rest, a :: args => a.data ++ formatS rest args
  | c :: rest, args => c :: formatS rest args

/-- `util.format(template, a, b)` on a template using `%s` placeholders. -/
def utilFormat2 (template a b : String) : String :=
  ⟨formatS template.data [a, b]⟩

/-- The connection parameters a `CalDav` instance holds. -/
structure CalDav where
  url : String
  user : String
  password : String
  proxy : Option String
deriving DecidableEq, Repr

namespace CalDav

/-- The `CalDav` constructor: stores the four connection parameters. -/
def make (url user password : String) (proxy : Option String) : CalDav :=
  ⟨url, user, password, proxy⟩

/-- The XML body of `getCurrentUserPrincipal`, exactly as in the source. -/
def currentUserPrincipalXml : String :=
  "\n        <d:propfind xmlns:d=\"DAV:\">\n          <d:prop>\n            <d:current-user-principal />\n          </d:prop>\n        </d:propfind>\n        "

/-- The XML body of `getCalendarHomeSet`, exactly as in the source. -/
def calendarHomeSetXml : String :=
  "\n        <d:propfind xmlns:d=\"DAV:\" xmlns:c=\"urn:ietf:params:xml:ns:caldav\">\n          <d:prop>\n            <c:calendar-home-set />\n          </d:prop>\n        </d:propfind>\n        "

/-- The XML body of `getCalendarComponentSet`, exactly as in the source. -/
def calendarComponentSetXml : String :=
  "\n        <d:propfind xmlns:d=\"DAV:\" xmlns:cs=\"http://calendarserver.org/ns/\" xmlns:c=\"urn:ietf:params:xml:ns:caldav\">\n          <d:prop>\n           <d:resourcetype />\n           <d:displayname />\n           <cs:getctag />\n           <c:supported-calendar-component-set />\n          </d:prop>\n        </d:propfind>\n        "

/-- The `calendar-query` XML template of `search`, exactly as in the
source, with its two `%s` placeholders. -/
def searchXmlTemplate : String :=
  "\n        <c:calendar-query xmlns:d=\"DAV:\" xmlns:c=\"urn:ietf:params:xml:ns:caldav\">\n          <d:prop>\n            <d:getetag />\n            <c:calendar-data />\n          </d:prop>\n          <c:filter>\n            <c:comp-filter name=\"VCALENDAR\">\n              <c:comp-filter name=\"VEVENT\">\n                <c:prop-filter name=\"%s\">\n                  <c:text-match>%s</c:text-match>\n                </c:prop-filter>\n              </c:comp-filter>\n            </c:comp-filter>\n          </c:filter>\n        </c:calendar-query>\n        "

/-- The request built by `getCurrentUserPrincipal`: PROPFIND with headers
`Depth: 0` and `Prefer: return-minimal`, the propfind body, the given
proxy, and basic auth. -/
def getCurrentUserPrincipalRequest (url user password : String)
    (proxy : Option String) : HttpRequest :=
  { method := "PROPFIND", urlStr := url, depth := some "0"
    prefer := some "return-minimal", ifMatch := none, proxy := proxy
    body := some currentUserPrincipalXml
    authUser := user, authPassword := password }

/-- The request built by `getCalendarHomeSet`. -/
def getCalendarHomeSetRequest (url user password : String)
    (proxy : Option String) : HttpRequest :=
  { method := "PROPFIND", urlStr := url, depth := some "0"
    prefer := some "return-minimal", ifMatch := none, proxy := proxy
    body := some calendarHomeSetXml
    authUser := user, authPassword := password }

/-- The request built by `getCalendarComponentSet`: PROPFIND with
`Depth: 1`. -/
def getCalendarComponentSetRequest (url user password : String)
    (proxy : Option String) : HttpRequest :=
  { method := "PROPFIND", urlStr := url, depth := some "1"
    prefer := some "return-minimal", ifMatch := none, proxy := proxy
    body := some calendarComponentSetXml
    authUser := user, authPassword := password }

/-- The request built by `search`: REPORT with `Depth: 1`,
`Prefer: return-minimal`, the instance's url/proxy/credentials, and the
template with `field` and `id` substituted by `util.format`. -/
def searchRequest (c : CalDav) (field id : String) : HttpRequest :=
  { method := "REPORT", urlStr := c.url, depth := some "1"
    prefer := some "return-minimal", ifMatch := none, proxy := c.proxy
    body := some (utilFormat2 searchXmlTemplate field id)
    authUser := c.user, authPassword := c.password }

/-- The request built by `put`: PUT to `new URL(ics, this.url)` (URL
resolution is the external `resolveUrl`), the raw event body, and a
headers object `{ "If-Match": etag }` set only when `etag` is truthy. -/
def putRequest (resolveUrl : String → String → String) (c : CalDav)
    (ics event : String) (etag : Option String) : HttpRequest :=
  { method := "PUT", urlStr := resolveUrl ics c.url, depth := none
    prefer := none
    ifMatch := if truthyStr etag then etag else none
    proxy := c.proxy, body := some event
    authUser := c.user, authPassword := c.password }

/-- The request built by `delete`: DELETE to `new URL(ics, this.url)`
with headers `{ "If-Match": etag }`, no body. -/
def deleteRequest (resolveUrl : String → String → String) (c : CalDav)
    (ics etag : String) : HttpRequest :=
  { method := "DELETE", urlStr := resolveUrl ics c.url, depth := none
    prefer := none, ifMatch := some etag, proxy := c.proxy, body := none
    authUser := c.user, authPassword := c.password }

/-- The response callback of `getCurrentUserPrincipal`: `reject(error)` on
a transport error (the first settling call wins), otherwise
`resolve(json.multistatus)` of the decoded body. -/
def getCurrentUserPrincipalOutcome (decode : String → DecodedTree)
    (error : Option TransportError) (body : String) : DavOutcome :=
  match error with
  | some e => .rejected e
  | none => .resolved (decode body).multistatus

/-- The response callback of `getCalendarHomeSet` (same shape). -/
def getCalendarHomeSetOutcome (decode : String → DecodedTree)
    (error : Option TransportError) (body : String) : DavOutcome :=
  match error with
  | some e => .rejected e
  | none => .resolved (decode body).multistatus

/-- The response callback of `getCalendarComponentSet` (same shape). -/
def getCalendarComponentSetOutcome (decode : String → DecodedTree)
    (error : Option TransportError) (body : String) : DavOutcome :=
  match error with
  | some e => .rejected e
  | none => .resolved (decode body).multistatus

/-- The response callback of `search` (same shape). -/
def searchOutcome (decode : String → DecodedTree)
    (error : Option TransportError) (body : String) : DavOutcome :=
  match error with
  | some e => .rejected e
  | none => .resolved (decode body).multistatus

/-- The response callback of `delete` (same shape: no status inspection,
the body is decoded unconditionally). -/
def deleteOutcome (decode : String → DecodedTree)
    (error : Option TransportError) (body : String) : DavOutcome :=
  match error with
  | some e => .rejected e
  | none => .resolved (decode body).multistatus

/-- The response callback of `put`: on a transport error `reject(error)`
settles the promise first; otherwise, if `response.statusCode` is truthy
and in `[200, 300)`, `resolve(tag)` only when `response.headers.etag` is
truthy and a plain string (then `return`); every other status reaches
`reject("error")`. -/
def putOutcome (error : Option TransportError) (resp : HttpResponse) :
    PutOutcome :=
  match error with
  | some e => .rejectedTransport e
  | none =>
    match resp.statusCode with
    | some c =>
      if c ≠ 0 then
        if 200 ≤ c ∧ c < 300 then
          match resp.etagHeader with
          | some (.str t) => if t ≠ "" then .resolved t else .pending
          | some (.arr _) => .pending
          | none => .pending
        else .rejectedError "error"
      else .rejectedError "error"
    | none => .rejectedError "error"

/-- `search` as a state-passing call: the method body contains no
assignment to any field of `this`, so the instance is returned unchanged
alongside the request it builds. -/
def searchCall (c : CalDav) (field id : String) : HttpRequest × CalDav :=
  (c.searchRequest field id, c)

/-- `put` as a state-passing call: no field of `this` is assigned. -/
def putCall (resolveUrl : String → String → String) (c : CalDav)
    (ics event : String) (etag : Option String) : HttpRequest × CalDav :=
  (putRequest resolveUrl c ics event etag, c)

/-- `delete` as a state-passing call: no field of `this` is assigned. -/
def deleteCall (resolveUrl : String → String → String) (c : CalDav)
    (ics etag : String) : HttpRequest × CalDav :=
  (deleteRequest resolveUrl c ics etag, c)

end CalDav

/-- Modelled from the spec: the XML decoder collaborator (`strong-soap`'s
`XMLHandler`, external to this repository) turns "repeated sibling
elements" into "sequences" (§6); a `multistatus` element whose children
are the listed `response` resources, in server order, therefore decodes
its `response` key to the single element when there is exactly one and to
the ordered sequence otherwise. -/
def decodeResponses : List IResponse → OneOrMany IResponse
  | [r] => .one r
  | rs => .many rs

/-- Modelled from the spec: the `IMultiStatus` the decoder produces for a
server multistatus listing the given resources in order. -/
def decodeServerMultistatus (rs : List IResponse) : IMultiStatus :=
  ⟨decodeResponses rs⟩

/-- Normalization of the `IResponse | IResponse[]` union to a sequence,
the uniform view the spec asks callers to take. -/
def OneOrMany.toList {α : Type} : OneOrMany α → List α
  | .one a => [a]
  | .many l => l

/-- A concrete decoded resource used to instantiate hypotheses. -/
def sampleResponseA : IResponse :=
  ⟨"/cal/alice/", none, some "HTTP/1.1 200 OK"⟩

/-- A second concrete decoded resource. -/
def sampleResponseB : IResponse :=
  ⟨"/cal/bob/", none, some "HTTP/1.1 200 OK"⟩

/-- The search template up to and including `<c:prop-filter name="`:
everything before the first `%s` placeholder, showing the nesting
`calendar-query` > `filter` > `comp-filter name="VCALENDAR"` >
`comp-filter name="VEVENT"` > `prop-filter name="`. -/
def searchBodyPre : String :=
  "\n        <c:calendar-query xmlns:d=\"DAV:\" xmlns:c=\"urn:ietf:params:xml:ns:caldav\">\n          <d:prop>\n            <d:getetag />\n            <c:calendar-data />\n          </d:prop>\n          <c:filter>\n            <c:comp-filter name=\"VCALENDAR\">\n              <c:comp-filter name=\"VEVENT\">\n                <c:prop-filter name=\""

/-- The search template between its two `%s` placeholders: closes the
`prop-filter` opening tag and opens `<c:text-match>`. -/
def searchBodyMid : String :=
  "\">\n                  <c:text-match>"

/-- The search template after the second `%s` placeholder: closes
`text-match`, `prop-filter`, both `comp-filter`s, `filter` and
`calendar-query`. -/
def searchBodyPost : String :=
  "</c:text-match>\n                </c:prop-filter>\n              </c:comp-filter>\n            </c:comp-filter>\n          </c:filter>\n        </c:calendar-query>\n        "

/-- C1: the claim as stated is false at explicit inputs. With status 200
and an `ETag` header that is the plain string `""`, `put` neither
resolves with `""` nor settles at all (the truthiness test skips
`resolve`); and the rejections at statuses 404 and 500 are the identical
fixed string `"error"`, so the rejection cannot carry the status code. -/
theorem put_settlement_counterexample :
    CalDav.putOutcome none ⟨some 200, some (.str "")⟩ = .pending ∧
    CalDav.putOutcome none ⟨some 200, some (.str "")⟩ ≠ .resolved "" ∧
    CalDav.putOutcome none ⟨some 404, none⟩ = .rejectedError "error" ∧
    CalDav.putOutcome none ⟨some 404, none⟩ = CalDav.putOutcome none ⟨some 500, none⟩ := by
  decide

/-- C1 (amended): with no transport error, a status in `[200, 300)` and a
nonempty plain-string `ETag` header make `put` resolve with exactly that
header value; any status outside `[200, 300)` makes it reject with the
fixed string `"error"` (which does not carry the status code). -/
theorem put_settlement_amended (resp : HttpResponse) (c : Nat)
    (hc : resp.statusCode = some c) :
    ((200 ≤ c ∧ c < 300) → ∀ t, resp.etagHeader = some (.str t) → t ≠ "" →
      CalDav.putOutcome none resp = .resolved t) ∧
    (¬(200 ≤ c ∧ c < 300) →
      CalDav.putOutcome none resp = .rejectedError "error") := by
  constructor
  · intro h2 t ht hne
    have hc0 : c ≠ 0 := by omega
    simp [CalDav.putOutcome, hc, ht, hc0, h2, hne]
  · intro h2
    by_cases hc0 : c = 0
    · simp [CalDav.putOutcome, hc, hc0]
    · simp [CalDav.putOutcome, hc, hc0, h2]

/-- Witness for C1 (amended) at status 200 with `ETag: "abc123"`, and at
status 412 with no `ETag` header. -/
theorem put_settlement_amended_witness :
    CalDav.putOutcome none ⟨some 200, some (.str "abc123")⟩
      = .resolved "abc123" ∧
    CalDav.putOutcome none ⟨some 412, none⟩ = .rejectedError "error" :=
  ⟨(put_settlement_amended ⟨some 200, some (.str "abc123")⟩ 200 rfl).1
      (by decide) "abc123" rfl (by decide),
    (put_settlement_amended ⟨some 412, none⟩ 412 rfl).2 (by decide)⟩

/-- C2: with a success status in `[200, 300)` and an `ETag` header that is
absent or a string array (not a plain string), `put` reaches the bare
`return` without calling `resolve` or `reject`: the promise never
settles. -/
theorem put_missing_etag_never_settles (resp : HttpResponse) (c : Nat)
    (hc : resp.statusCode = some c) (h1 : 200 ≤ c) (h2 : c < 300)
    (he : resp.etagHeader = none ∨ ∃ l, resp.etagHeader = some (.arr l)) :
    CalDav.putOutcome none resp = .pending := by
  have hc0 : c ≠ 0 := by omega
  rcases he with he | ⟨l, he⟩ <;>
    simp [CalDav.putOutcome, hc, hc0, he, h1, h2]

/-- Witness for C2 at a 201 response with no `ETag` header. -/
theorem put_missing_etag_never_settles_witness :
    CalDav.putOutcome none ⟨some 201, none⟩ = .pending :=
  put_missing_etag_never_settles ⟨some 201, none⟩ 201 rfl (by decide)
    (by decide) (Or.inl rfl)

/-- C3: each discovery/search operation rejects with the transport error
exactly when the transport reports one, and otherwise resolves with the
`multistatus` field of the decoded tree unmodified, whatever per-resource
statuses it contains. -/
theorem discovery_search_outcome_exact (decode : String → DecodedTree)
    (body : String) (e : TransportError) :
    (CalDav.getCurrentUserPrincipalOutcome decode (some e) body
        = .rejected e ∧
      CalDav.getCurrentUserPrincipalOutcome decode none body
        = .resolved (decode body).multistatus ∧
      ∀ e2, CalDav.getCurrentUserPrincipalOutcome decode none body
        ≠ .rejected e2) ∧
    (CalDav.getCalendarHomeSetOutcome decode (some e) body = .rejected e ∧
      CalDav.getCalendarHomeSetOutcome decode none body
        = .resolved (decode body).multistatus ∧
      ∀ e2, CalDav.getCalendarHomeSetOutcome decode none body
        ≠ .rejected e2) ∧
    (CalDav.getCalendarComponentSetOutcome decode (some e) body
        = .rejected e ∧
      CalDav.getCalendarComponentSetOutcome decode none body
        = .resolved (decode body).multistatus ∧
      ∀ e2, CalDav.getCalendarComponentSetOutcome decode none body
        ≠ .rejected e2) ∧
    (CalDav.searchOutcome decode (some e) body = .rejected e ∧
      CalDav.searchOutcome decode none body
        = .resolved (decode body).multistatus ∧
      ∀ e2, CalDav.searchOutcome decode none body ≠ .rejected e2) := by
  refine ⟨⟨rfl, rfl, ?_⟩, ⟨rfl, rfl, ?_⟩, ⟨rfl, rfl, ?_⟩, ⟨rfl, rfl, ?_⟩⟩ <;>
    intro e2 <;>
    simp [CalDav.getCurrentUserPrincipalOutcome,
      CalDav.getCalendarHomeSetOutcome,
      CalDav.getCalendarComponentSetOutcome, CalDav.searchOutcome]

/-- C4: the claim as stated is false at an explicit input: a supplied
empty-string etag produces no `If-Match` header instead of
`If-Match: ""`, because the source guards the header with a truthiness
test. -/
theorem put_ifmatch_counterexample :
    (CalDav.putRequest (fun i _ => i) (CalDav.make "http://h/" "u" "p" none)
        "a.ics" "BODY" (some "")).ifMatch ≠ some "" ∧
    (CalDav.putRequest (fun i _ => i) (CalDav.make "http://h/" "u" "p" none)
        "a.ics" "BODY" (some "")).ifMatch = none := by
  constructor
  · intro h
    simp [CalDav.putRequest, truthyStr] at h
  · rfl

/-- C4 (amended): with no etag argument the PUT request carries no
`If-Match` header; with a nonempty etag argument its `If-Match` header is
exactly that value (an empty-string etag also omits the header). -/
theorem put_ifmatch_amended (resolveUrl : String → String → String)
    (c : CalDav) (ics event : String) :
    (CalDav.putRequest resolveUrl c ics event none).ifMatch = none ∧
    ∀ etag : String, etag ≠ "" →
      (CalDav.putRequest resolveUrl c ics event (some etag)).ifMatch
        = some etag := by
  refine ⟨rfl, fun etag hne => ?_⟩
  simp [CalDav.putRequest, truthyStr, hne]

/-- Witness for C4 (amended) at the etag `"W/xyz"`. -/
theorem put_ifmatch_amended_witness :
    (CalDav.putRequest (fun i _ => i)
        (CalDav.make "http://h/" "u" "p" none) "a.ics" "BODY"
        (some "W/xyz")).ifMatch = some "W/xyz" :=
  (put_ifmatch_amended (fun i _ => i) (CalDav.make "http://h/" "u" "p" none)
      "a.ics" "BODY").2 "W/xyz" (by decide)

/-- C7: every DELETE request carries `If-Match` equal to the supplied
etag, and with no transport error the operation resolves with the
`multistatus` field of the unconditionally decoded response body,
whatever the body's shape. -/
theorem delete_ifmatch_and_decode (resolveUrl : String → String → String)
    (c : CalDav) (ics etag : String) (decode : String → DecodedTree)
    (body : String) :
    (CalDav.deleteRequest resolveUrl c ics etag).method = "DELETE" ∧
    (CalDav.deleteRequest resolveUrl c ics etag).ifMatch = some etag ∧
    (CalDav.deleteRequest resolveUrl c ics etag).body = none ∧
    CalDav.deleteOutcome decode none body
      = .resolved (decode body).multistatus :=
  ⟨rfl, rfl, rfl, rfl⟩

/-- C9: the constructor stores url, user, password and proxy, and the
state-passing versions of `search`, `put` and `delete` return the
instance unchanged: no field is mutated by any call. -/
theorem instance_state_immutable (url user password : String)
    (proxy : Option String) (resolveUrl : String → String → String)
    (c : CalDav) (field id ics event etag2 : String)
    (etag : Option String) :
    (CalDav.make url user password proxy).url = url ∧
    (CalDav.make url user password proxy).user = user ∧
    (CalDav.make url user password proxy).password = password ∧
    (CalDav.make url user password proxy).proxy = proxy ∧
    (c.searchCall field id).2 = c ∧
    (CalDav.putCall resolveUrl c ics event etag).2 = c ∧
    (CalDav.deleteCall resolveUrl c ics etag2).2 = c :=
  ⟨rfl, rfl, rfl, rfl, rfl, rfl, rfl⟩

/-- C10: an empty-string etag argument yields exactly the request an
omitted etag yields — in particular no `If-Match` header — because the
source's supplied-etag test is JavaScript truthiness. -/
theorem put_empty_etag_like_omitted (resolveUrl : String → String → String)
    (c : CalDav) (ics event : String) :
    CalDav.putRequest resolveUrl c ics event (some "")
      = CalDav.putRequest resolveUrl c ics event none ∧
    (CalDav.putRequest resolveUrl c ics event (some "")).ifMatch = none :=
  ⟨rfl, rfl⟩

/-- C5: the REPORT body of `search(field, id)` is the template split
exactly at its two placeholders with `field` and `id` inserted verbatim —
`field` right inside `prop-filter name="`, `id` inside `text-match`, at
nesting `comp-filter "VCALENDAR"` > `comp-filter "VEVENT"` > named
`prop-filter` > `text-match` — and the three parts reassemble the source
template around `%s`. -/
theorem search_body_embeds_verbatim (c : CalDav) (field id : String) :
    (c.searchRequest field id).body
      = some (searchBodyPre
          ++ (field ++ (searchBodyMid ++ (id ++ searchBodyPost)))) ∧
    searchBodyPre ++ ("%s" ++ (searchBodyMid ++ ("%s" ++ searchBodyPost)))
      = CalDav.searchXmlTemplate :=
  ⟨rfl, rfl⟩

/-- C6: a discovery call delivers the decoder's multistatus untouched, so
for a server response listing the resources `rs` in order (one or many),
the caller's uniform sequence view of `response` is exactly `rs`:
`rs.length` elements, server order preserved, and a single resource
normalizes to the single-element sequence. -/
theorem discovery_normalizes_responses (decode : String → DecodedTree)
    (body : String) (rs : List IResponse)
    (hdec : (decode body).multistatus = some (decodeServerMultistatus rs))
    (hn : rs ≠ []) :
    CalDav.getCurrentUserPrincipalOutcome decode none body
      = .resolved (some ⟨decodeResponses rs⟩) ∧
    (decodeResponses rs).toList = rs ∧
    (decodeResponses rs).toList.length = rs.length := by
  have h2 : (decodeResponses rs).toList = rs := by
    match rs with
    | [] => exact absurd rfl hn
    | [r] => rfl
    | a :: b :: t => rfl
  refine ⟨?_, h2, by rw [h2]⟩
  simp [CalDav.getCurrentUserPrincipalOutcome, hdec, decodeServerMultistatus]

/-- Witness for C6 on a two-resource server response. -/
theorem discovery_normalizes_responses_witness :
    CalDav.getCurrentUserPrincipalOutcome
        (fun _ =>
          ⟨some (decodeServerMultistatus [sampleResponseA, sampleResponseB])⟩)
        none "<xml/>"
      = .resolved (some ⟨decodeResponses [sampleResponseA, sampleResponseB]⟩) ∧
    (decodeResponses [sampleResponseA, sampleResponseB]).toList
      = [sampleResponseA, sampleResponseB] ∧
    (decodeResponses [sampleResponseA, sampleResponseB]).toList.length
      = [sampleResponseA, sampleResponseB].length :=
  discovery_normalizes_responses
    (fun _ =>
      ⟨some (decodeServerMultistatus [sampleResponseA, sampleResponseB])⟩)
    "<xml/>" [sampleResponseA, sampleResponseB] rfl (by simp)

/-- C8: the three discovery requests use PROPFIND with the table's Depth
and request the table's properties in their bodies, and all four
discovery/search requests set `Prefer: return-minimal`. -/
theorem discovery_request_table (url user password : String)
    (proxy : Option String) (c : CalDav) (field id : String) :
    ((CalDav.getCurrentUserPrincipalRequest url user password proxy).method
        = "PROPFIND" ∧
      (CalDav.getCurrentUserPrincipalRequest url user password proxy).depth
        = some "0" ∧
      (CalDav.getCurrentUserPrincipalRequest url user password proxy).prefer
        = some "return-minimal" ∧
      (CalDav.getCurrentUserPrincipalRequest url user password proxy).body
        = some CalDav.currentUserPrincipalXml ∧
      List.IsInfix "<d:current-user-principal />".data
        CalDav.currentUserPrincipalXml.data) ∧
    ((CalDav.getCalendarHomeSetRequest url user password proxy).method
        = "PROPFIND" ∧
      (CalDav.getCalendarHomeSetRequest url user password proxy).depth
        = some "0" ∧
      (CalDav.getCalendarHomeSetRequest url user password proxy).prefer
        = some "return-minimal" ∧
      (CalDav.getCalendarHomeSetRequest url user password proxy).body
        = some CalDav.calendarHomeSetXml ∧
      List.IsInfix "<c:calendar-home-set />".data
        CalDav.calendarHomeSetXml.data) ∧
    ((CalDav.getCalendarComponentSetRequest url user password proxy).method
        = "PROPFIND" ∧
      (CalDav.getCalendarComponentSetRequest url user password proxy).depth
        = some "1" ∧
      (CalDav.getCalendarComponentSetRequest url user password proxy).prefer
        = some "return-minimal" ∧
      (CalDav.getCalendarComponentSetRequest url user password proxy).body
        = some CalDav.calendarComponentSetXml ∧
      List.IsInfix "<d:resourcetype />".data
        CalDav.calendarComponentSetXml.data ∧
      List.IsInfix "<d:displayname />".data
        CalDav.calendarComponentSetXml.data ∧
      List.IsInfix "<cs:getctag />".data
        CalDav.calendarComponentSetXml.data ∧
      List.IsInfix "<c:supported-calendar-component-set />".data
        CalDav.calendarComponentSetXml.data) ∧
    (c.searchRequest field id).prefer = some "return-minimal" :=
  ⟨⟨rfl, rfl, rfl, rfl, by decide⟩,
    ⟨rfl, rfl, rfl, rfl, by decide⟩,
    ⟨rfl, rfl, rfl, rfl, by decide, by decide, by decide, by decide⟩,
    rfl⟩
